import Mathlib

/-!
Verification development for the excalibur-tests repository.

The development shallowly embeds the Python sources:

* `src/apps/gromacs/benchmark.py` — the `DiRACTest.set_attributes_after_setup`
  core-count resolution (MPI tasks, nodes, tasks per node, OMP thread clamping);
* `src/one-line-benchmark/gromacs/benchmark.py` — the standalone runner's task
  derivation, performance extraction and `deviation_from_linear` statistic;
* `src/doc/inject_plots.py` — log-line parsing (`Benchmark.set_from`), log-file
  grouping (`StrongScalingPlot`), relative-value normalization, block averaging
  and the time-series binning of `TimeSeriesRegressionPlot.smoothed`.

Python strings are modelled as `List Char` (`Str`); Python float arithmetic is
modelled exactly over `ℚ`; fallible code returns `Except String _` or
`Option _`.  Machine behaviour is faithful to the sources: integer `//` is
`Nat` division, `str.split(sep)` with a one-character separator is
`List.splitOn`, `str.split()` is splitting on whitespace discarding empties,
and `s in x` is substring occurrence.
-/

namespace Excalibur

/-- Python strings, modelled as their character lists. -/
abbrev Str := List Char

/-- `math.ceil(a / b)` for nonnegative integers `a`, `b > 0`: the exact
rational ceiling of the division (the Python code divides two ints with `/`
and applies `math.ceil`). -/
def ceilDivNat (a b : Nat) : Nat := (a + b - 1) / b

/-! ## `src/apps/gromacs/benchmark.py`: `DiRACTest.set_attributes_after_setup` -/

/-- The attributes resolved by `DiRACTest.set_attributes_after_setup`. -/
structure DiRACState where
  num_total_cores : Nat
  num_omp_threads : Nat
  num_mpi_tasks : Nat
  num_mpi_tasks_per_node : Nat
  num_nodes : Nat
  num_cpus_per_task : Nat
  deriving Repr, DecidableEq

/-- Embedding of `DiRACTest.set_attributes_after_setup` (benchmark.py lines
47-81).  `cpus_per_node` is `some c` when
`self._current_partition.processor.num_cpus` is available and `none` when that
lookup fails or returns `None` (the `AttributeError` branch falling back to a
single node).  The steps mirror the source order:
`num_mpi_tasks = max(total // threads, 1)`, then the node count, then
`num_mpi_tasks_per_node = ceil(tasks / nodes)`, then the OMP-thread clamp when
`total // threads == 0`. -/
def set_attributes_after_setup (num_total_cores num_omp_threads : Nat)
    (cpus_per_node : Option Nat) : DiRACState :=
  let num_mpi_tasks := max (num_total_cores / num_omp_threads) 1
  let num_nodes :=
    match cpus_per_node with
    | some c => ceilDivNat num_mpi_tasks c
    | none => 1
  let num_mpi_tasks_per_node := ceilDivNat num_mpi_tasks num_nodes
  let final_omp_threads :=
    if num_total_cores / num_omp_threads = 0 then num_total_cores
    else num_omp_threads
  { num_total_cores := num_total_cores
    num_omp_threads := final_omp_threads
    num_mpi_tasks := num_mpi_tasks
    num_mpi_tasks_per_node := num_mpi_tasks_per_node
    num_nodes := num_nodes
    num_cpus_per_task := final_omp_threads }

/-! ## `src/one-line-benchmark/gromacs/benchmark.py`: the standalone runner -/

/-- Embedding of the task-count derivation in `GROMACSBenchmark.run`
(benchmark.py line 82): `n_tasks = self.n_cores // int(OMP_NUM_THREADS)`.
Note the absence of any clamping to 1. -/
def standalone_n_tasks (n_cores omp_num_threads : Nat) : Nat :=
  n_cores / omp_num_threads

/-! ## Arithmetic helper lemmas -/

theorem le_ceilDivNat_mul (t n : Nat) (hn : 1 ≤ n) : t ≤ ceilDivNat t n * n := by
  unfold ceilDivNat
  rw [Nat.mul_comm]
  have h1 := Nat.div_add_mod (t + n - 1) n
  have h2 := Nat.mod_lt (t + n - 1) (show 0 < n by omega)
  omega

theorem one_le_ceilDivNat (t n : Nat) (ht : 1 ≤ t) (hn : 1 ≤ n) :
    1 ≤ ceilDivNat t n := by
  unfold ceilDivNat
  rw [Nat.one_le_div_iff (by omega)]
  omega

theorem one_le_resolved_nodes (C T : Nat) (cpn : Option Nat)
    (hcpn : ∀ c, cpn = some c → 1 ≤ c) :
    1 ≤ (set_attributes_after_setup C T cpn).num_nodes := by
  unfold set_attributes_after_setup
  cases cpn with
  | none => simp
  | some c =>
    simp only
    exact one_le_ceilDivNat _ c (le_max_right _ 1) (hcpn c rfl)

/-- Claim C1: for every requested total core count `C ≥ 1` and OMP thread
count `T` with `1 ≤ T ≤ C`, after `set_attributes_after_setup` the MPI task
count equals `max (C / T) 1`, and the resolved tasks-per-node multiplied by
the resolved node count is at least the task count — for any node count
(derived from a positive per-node core count, or the 1-node fallback). -/
theorem C1_task_count_and_node_capacity (C T : Nat) (cpn : Option Nat)
    (hC : 1 ≤ C) (hT : 1 ≤ T) (hTC : T ≤ C)
    (hcpn : ∀ c, cpn = some c → 1 ≤ c) :
    (set_attributes_after_setup C T cpn).num_mpi_tasks = max (C / T) 1 ∧
    (set_attributes_after_setup C T cpn).num_mpi_tasks ≤
      (set_attributes_after_setup C T cpn).num_mpi_tasks_per_node *
        (set_attributes_after_setup C T cpn).num_nodes := by
  have hnodes := one_le_resolved_nodes C T cpn hcpn
  constructor
  · rfl
  · have h := le_ceilDivNat_mul (set_attributes_after_setup C T cpn).num_mpi_tasks
      (set_attributes_after_setup C T cpn).num_nodes hnodes
    exact h

/-- Witness for C1 at `C = 20`, `T = 4`, 8 cpus per node: the task count is
`max (20 / 4) 1 = 5` and the per-node capacity covers it. -/
theorem C1_task_count_and_node_capacity_witness :
    (set_attributes_after_setup 20 4 (some 8)).num_mpi_tasks = max (20 / 4) 1 ∧
    (set_attributes_after_setup 20 4 (some 8)).num_mpi_tasks ≤
      (set_attributes_after_setup 20 4 (some 8)).num_mpi_tasks_per_node *
        (set_attributes_after_setup 20 4 (some 8)).num_nodes :=
  C1_task_count_and_node_capacity 20 4 (some 8) (by decide) (by decide)
    (by decide) (fun c hc => by cases hc; decide)

/-- Claim C5: in `set_attributes_after_setup`, if the requested total core
count is strictly below the OMP thread count then the resolved thread count is
clamped down to the total core count, and in all cases (for `C ≥ 1`, initial
`T ≥ 1`) the resolved thread count never exceeds the requested core count. -/
theorem C5_thread_clamp (C T : Nat) (cpn : Option Nat)
    (hC : 1 ≤ C) (hT : 1 ≤ T) :
    (C < T → (set_attributes_after_setup C T cpn).num_omp_threads = C) ∧
    (set_attributes_after_setup C T cpn).num_omp_threads ≤ C := by
  constructor
  · intro hlt
    simp [set_attributes_after_setup, Nat.div_eq_of_lt hlt]
  · unfold set_attributes_after_setup
    simp only
    by_cases h : C / T = 0
    · simp [h]
    · simp only [if_neg h]
      have : 1 ≤ C / T := Nat.one_le_iff_ne_zero.mpr h
      have := (Nat.one_le_div_iff (by omega : 0 < T)).mp this
      omega

/-- Witness for C5 at `C = 2`, `T = 4`: the thread count is clamped to 2. -/
theorem C5_thread_clamp_witness :
    (2 < 4 → (set_attributes_after_setup 2 4 none).num_omp_threads = 2) ∧
    (set_attributes_after_setup 2 4 none).num_omp_threads ≤ 2 :=
  C5_thread_clamp 2 4 none (by decide) (by decide)

/-- Counterexample to claim C4 as stated: the standalone runner
(`GROMACSBenchmark.run`) derives `n_tasks = n_cores // OMP_NUM_THREADS` with
no clamping, so at requested core count 1 (which is `≥ 1`) with the script's
thread count 2 the launched task count is 0, not at least 1. -/
theorem C4_counterexample : ¬ 1 ≤ standalone_n_tasks 1 2 := by decide

/-- Claim C4 (amended): the ReFrame benchmark path
(`DiRACTest.set_attributes_after_setup`) always resolves an MPI task count of
at least 1; the standalone runner's task count `n_cores // threads` is at
least 1 only under the additional condition `threads ≤ n_cores` (with
`threads ≥ 1`), which holds for every core count the script actually sweeps
(`range(4, cpu_count(), 4)` with 2 OMP threads). -/
theorem C4_amended_task_count_positive :
    (∀ C T cpn, 1 ≤ (set_attributes_after_setup C T cpn).num_mpi_tasks) ∧
    (∀ C T, 1 ≤ T → T ≤ C → 1 ≤ standalone_n_tasks C T) := by
  constructor
  · intro C T cpn
    exact le_max_right _ 1
  · intro C T hT hTC
    unfold standalone_n_tasks
    rw [Nat.one_le_div_iff (by omega)]
    exact hTC

/-- Witness for the amended C4: the ReFrame path at `C = 1`, `T = 2` still
resolves 1 task, and the standalone runner at its first swept configuration
(4 cores, 2 threads) launches at least 1 task. -/
theorem C4_amended_task_count_positive_witness :
    1 ≤ (set_attributes_after_setup 1 2 none).num_mpi_tasks ∧
    1 ≤ standalone_n_tasks 4 2 :=
  ⟨C4_amended_task_count_positive.1 1 2 none,
   C4_amended_task_count_positive.2 4 2 (by decide) (by decide)⟩

/-! ## String primitives (Python semantics over `Str = List Char`)

`str.split(c)` for a one-character separator is `List.splitOn c`; Python keeps
empty parts, as `List.splitOn` does.  `s in x` (substring occurrence) is
`pyContains`; `str.split()` (whitespace split, empties discarded) is
`pySplitWS`. -/

deriving instance DecidableEq for Except

/-- Python `s in x` for strings: some position of `x` starts with `s`. -/
def pyContains (x s : Str) : Bool :=
  (List.range (x.length + 1)).any (fun i => (x.drop i).take s.length == s)

/-- Python `str.split()` with no separator: split on whitespace runs and
discard empty pieces. -/
def pySplitWS (s : Str) : List Str :=
  (s.splitOnP (fun c => c.isWhitespace)).filter (fun t => !t.isEmpty)

/-! ## `src/doc/inject_plots.py`: `Benchmark.set_from` log-line parsing -/

/-- Embedding of `Benchmark._set_metric` (inject_plots.py lines 185-198):
take pipe-field index 4, split it on `=` and keep the part before it; raise if
there is no field index 4, or if a concrete requested metric differs from the
extracted one. -/
def set_metric (metric line : Str) : Except String Str :=
  match (line.splitOn '|')[4]? with
  | none => Except.error ("Failed to find any metric in: " ++ String.mk line)
  | some field =>
    let extracted := (field.splitOn '=').headD []
    if metric ≠ "*".data ∧ extracted ≠ metric then
      Except.error ("Metric " ++ String.mk metric ++
        " was not at the expected position in: " ++ String.mk line)
    else Except.ok extracted

/-- Embedding of `Benchmark._value_of` (inject_plots.py lines 200-202):
`next(x.split('=')[1] for x in line.split('|') if s in x)`.  A missing
matching field is Python's `StopIteration`; a matching field without `=` is an
uncaught `IndexError` on `[1]`. -/
def value_of (s line : Str) : Except String Str :=
  match (line.splitOn '|').find? (fun x => pyContains x s) with
  | none => Except.error "StopIteration"
  | some x =>
    match (x.splitOn '=')[1]? with
    | none => Except.error "IndexError"
    | some v => Except.ok v

/-- Embedding of `Benchmark._set_date` string extraction (inject_plots.py
lines 180-183): the first whitespace token of the line, truncated before the
first `T`.  The subsequent `date.fromisoformat` decoding of that string is
left as the string itself; the claims only concern extraction. -/
def set_date (line : Str) : Except String Str :=
  match (pySplitWS line)[0]? with
  | none => Except.error "IndexError"
  | some tok => Except.ok ((tok.splitOn 'T').headD [])

/-- The fields `Benchmark.set_from` extracts from one log line, kept as the
raw extracted strings (the `float`/`int`/date decoding applied by the Python
to these strings changes representation only and is not what any claim is
about). -/
structure BenchmarkRecord where
  metric : Str
  value : Str
  units : Str
  date_str : Str
  num_total_cores : Str
  num_omp_threads : Str
  num_nodes : Str
  deriving Repr, DecidableEq

/-- Embedding of `Benchmark.set_from` (inject_plots.py lines 165-178), in the
source's call order: `_set_metric`, then the metric value, the units, the
date and the three integer context fields, each via `_value_of`; the first
failure propagates. -/
def set_from (metric line : Str) : Except String BenchmarkRecord := do
  let m ← set_metric metric line
  let v ← value_of m line
  let u ← value_of "units".data line
  let d ← set_date line
  let ntc ← value_of "num_total_cores".data line
  let nomp ← value_of "num_omp_threads".data line
  let nn ← value_of "num_nodes".data line
  Except.ok { metric := m, value := v, units := u, date_str := d,
              num_total_cores := ntc, num_omp_threads := nomp, num_nodes := nn }

/-- The literal log line of claim C2. -/
def C2_line : Str :=
  "2020-08-19T16:20:21+01:00|x|IMB_Pingpong|max_bandwidth=3041.25|Mbytes/sec|x|x".data

/-- Counterexample to claim C2 as stated: parsing the literal line with
requested metric `max_bandwidth` does not succeed — `_set_metric` reads
pipe-field index 4, which in this line is `Mbytes/sec`, so `set_from` raises
the metric-position error instead of yielding a value and units. -/
theorem C2_counterexample :
    set_from "max_bandwidth".data C2_line =
      Except.error ("Metric max_bandwidth was not at the expected position " ++
        "in: " ++ String.mk C2_line) := by decide

/-- Claim C2 (amended): parsing the literal line
`2020-08-19T16:20:21+01:00|x|IMB_Pingpong|max_bandwidth=3041.25|Mbytes/sec|x|x`
with requested metric `max_bandwidth` raises the descriptive metric-position
failure (pipe-field index 4 of this line is `Mbytes/sec`, not a
`max_bandwidth=...` field); the field extraction that would yield `3041.25`
does locate `max_bandwidth=3041.25`, but `set_from` never reaches it. -/
theorem C2_amended_metric_position_error :
    (set_metric "max_bandwidth".data C2_line).isOk = false ∧
    value_of "max_bandwidth".data C2_line = Except.ok "3041.25".data ∧
    (set_from "max_bandwidth".data C2_line).isOk = false := by decide

/-! ## `src/doc/inject_plots.py`: log-file grouping (`StrongScalingPlot`) -/

/-- Embedding of `ReFrameLogFile.directory` (inject_plots.py lines 241-243):
`''.join(self.filename.split('/')[2:-1])`. -/
def directory (filename : Str) : Str :=
  (((filename.splitOn '/').drop 2).dropLast).flatten

/-- Embedding of `StrongScalingPlot._n_diff_chars` (inject_plots.py lines
478-480): `sum(c1 != c2 for c1, c2 in zip(s1, s2))` — positions beyond the
shorter string are never compared. -/
def n_diff_chars (s1 s2 : Str) : Nat :=
  (s1.zip s2).countP (fun p => p.1 != p.2)

/-- One step of the grouping loop in `StrongScalingPlot._log_file_groups`
(inject_plots.py lines 495-510): scan the existing groups in order; the file
joins the first group whose representative (first member) has a directory
string differing in fewer than `threshold` characters, else it starts a new
group at the end. -/
def addToGroups (threshold : Nat) (f : Str) : List (List Str) → List (List Str)
  | [] => [[f]]
  | g :: gs =>
    if n_diff_chars (directory f) (directory (g.headD [])) < threshold then
      (g ++ [f]) :: gs
    else
      g :: addToGroups threshold f gs

/-- Embedding of `StrongScalingPlot._log_file_groups` over the files'
path strings (grouping reads nothing but `ReFrameLogFile.directory`); the
default threshold in the source is 1.  The Python raises for an empty file
list before the loop; the claims only concern nonempty inputs. -/
def log_file_groups (threshold : Nat) (files : List Str) : List (List Str) :=
  files.foldl (fun gs f => addToGroups threshold f gs) []

/-- The three literal paths of claim C3. -/
def C3_files : List Str :=
  ["a/run1/x.log".data, "a/run2/x.log".data, "b/run1/x.log".data]

/-- Counterexample to claim C3 as stated: grouping the three literal paths
with threshold 1 does not produce two groups. -/
theorem C3_counterexample : ¬ (log_file_groups 1 C3_files).length = 2 := by
  decide

/-- Claim C3 (amended): grouping the three literal paths `a/run1/x.log`,
`a/run2/x.log`, `b/run1/x.log` with threshold 1 produces exactly one group
holding all three files: `directory` keeps only path components at index 2 up
to (excluding) the last, which for these three-component paths is the empty
string, so every file differs from the first representative in 0 < 1
characters. -/
theorem C3_amended_single_group :
    log_file_groups 1 C3_files = [C3_files] ∧
    directory "a/run1/x.log".data = [] := by decide

/-! ### Prefix-comparison behaviour of the grouping distance (claim C9) -/

theorem n_diff_chars_append_right (s r : Str) : n_diff_chars s (s ++ r) = 0 := by
  induction s with
  | nil => rfl
  | cons a s ih =>
    simp only [n_diff_chars, List.cons_append, List.zip_cons_cons,
      List.countP_cons] at *
    simp [ih]

theorem n_diff_chars_append_left (s r : Str) : n_diff_chars (s ++ r) s = 0 := by
  induction s with
  | nil => simp [n_diff_chars]
  | cons a s ih =>
    simp only [n_diff_chars, List.cons_append, List.zip_cons_cons,
      List.countP_cons] at *
    simp [ih]

/-- Claim C9: the character-difference measure compares only up to the length
of the shorter string, so when one directory string extends the other the
counted difference is 0; consequently, under any threshold `≥ 1`, two files
whose directory strings are so related always land in one common group
(grouping the pair yields a single group), regardless of the length excess. -/
theorem C9_common_group_on_extension (f1 f2 : Str) (threshold : Nat)
    (hthr : 1 ≤ threshold)
    (hpre : (∃ r, directory f2 = directory f1 ++ r) ∨
            (∃ r, directory f1 = directory f2 ++ r)) :
    n_diff_chars (directory f1) (directory f2) = 0 ∧
    n_diff_chars (directory f2) (directory f1) = 0 ∧
    (log_file_groups threshold [f1, f2]).length = 1 := by
  have hd : n_diff_chars (directory f1) (directory f2) = 0 ∧
      n_diff_chars (directory f2) (directory f1) = 0 := by
    rcases hpre with ⟨r, hr⟩ | ⟨r, hr⟩
    · rw [hr]
      exact ⟨n_diff_chars_append_right _ r, n_diff_chars_append_left _ r⟩
    · rw [hr]
      exact ⟨n_diff_chars_append_left _ r, n_diff_chars_append_right _ r⟩
  refine ⟨hd.1, hd.2, ?_⟩
  show (addToGroups threshold f2 (addToGroups threshold f1 [])).length = 1
  have hlt : n_diff_chars (directory f2) (directory f1) < threshold := by
    rw [hd.2]
    omega
  simp only [addToGroups, List.headD_cons]
  rw [if_pos hlt]
  rfl

/-- Witness for C9: `a/b/c/x.log` has directory string `c`, a prefix of the
directory string `cd` of the longer path `a/b/c/d/x.log`; with threshold 1
the two files form one group. -/
theorem C9_common_group_on_extension_witness :
    n_diff_chars (directory "a/b/c/x.log".data)
      (directory "a/b/c/d/x.log".data) = 0 ∧
    n_diff_chars (directory "a/b/c/d/x.log".data)
      (directory "a/b/c/x.log".data) = 0 ∧
    (log_file_groups 1 ["a/b/c/x.log".data, "a/b/c/d/x.log".data]).length = 1 :=
  C9_common_group_on_extension "a/b/c/x.log".data "a/b/c/d/x.log".data 1
    (by decide) (Or.inl ⟨"d".data, by decide⟩)

/-! ## `src/doc/inject_plots.py`: relative-value normalization (claim C6)

Python float arithmetic is modelled exactly over `ℚ` (the claims' values are
all exactly representable). -/

/-- Modelled from the spec: `ReFrameLogFile.values` is read by
`TimeSeriesRegressionPlot._all_dates_values_from` (and `has_multiple_values`)
but no `values` accessor is declared in the sources provided; per the spec a
log file is "an ordered sequence of log records" each carrying a value, so
the accessor is the ordered list of those record values.  Here a file's value
series is passed directly as that list, and `has_multiple_values` is
`len(self.benchmarks) > 1` over it. -/
def has_multiple_values (values : List ℚ) : Bool :=
  1 < values.length

/-- Embedding of the normalization loop in
`TimeSeriesRegressionPlot._all_dates_values_from` (inject_plots.py lines
651-660) for one file's value series: series with at most one value are
skipped (`continue`), otherwise every value is divided by the first observed
value `init_value = f.values[0]`. -/
def relative_values (values : List ℚ) : List ℚ :=
  if has_multiple_values values then
    values.map (fun v => v / values.headD 0)
  else []

/-- Claim C6: for every value series with more than one value, each cached
relative value equals the raw value divided by the series' first observed
value; in particular the raw series `[10, 20, 5]` normalizes to
`[1, 2, 1/2]`. -/
theorem C6_relative_value_normalization :
    (∀ (vs : List ℚ), 1 < vs.length → ∀ (i : Nat),
      (relative_values vs)[i]? = vs[i]?.map (fun v => v / vs.headD 0)) ∧
    relative_values [10, 20, 5] = [1, 2, 1/2] := by
  constructor
  · intro vs h i
    rw [relative_values, if_pos (by simpa [has_multiple_values] using h)]
    simp
  · rw [relative_values, if_pos (by simp [has_multiple_values])]
    norm_num

/-- Witness for C6 at the series `[10, 20, 5]`, index 1. -/
theorem C6_relative_value_normalization_witness :
    (relative_values [10, 20, 5])[1]? =
      ([(10 : ℚ), 20, 5][1]?).map (fun v => v / ([(10 : ℚ), 20, 5].headD 0)) :=
  C6_relative_value_normalization.1 [10, 20, 5] (by simp) 1

/-! ## `src/one-line-benchmark/gromacs/benchmark.py`: performance extraction
and the deviation statistic (claim C7) -/

/-- Python truthiness of an optional float: `None` and `0.0` are falsy. -/
def truthyQ : Option ℚ → Bool
  | none => false
  | some v => v != 0

/-- The per-line test of `GROMACSBenchmark.performance` (benchmark.py lines
113-115): the first line containing `Performance:` and splitting into exactly
3 whitespace tokens yields token index 1 (the raw string later passed to
`float`). -/
def perf_line_value (l : Str) : Option Str :=
  if pyContains l "Performance:".data && (pySplitWS l).length == 3 then
    (pySplitWS l)[1]?
  else none

/-- Embedding of the `GROMACSBenchmark.performance` property (benchmark.py
lines 106-118): `None` stderr gives `None` with a warning; otherwise the
first matching line's value, or `None` with a warning when no line matched. -/
def performance : Option (List Str) → Option Str
  | none => none
  | some lines => lines.findSome? perf_line_value

/-- The pairs `GROMACSBenchmarks.deviation_from_linear` keeps (benchmark.py
lines 175-176): `zip(xs, ys)` filtered by Python truthiness of both
components. -/
def usable_pairs (xs : List ℚ) (ys : List (Option ℚ)) : List (ℚ × Option ℚ) :=
  (xs.zip ys).filter (fun p => (p.1 != 0) && truthyQ p.2)

/-- Python `np.mean`: sum divided by length. -/
def pyMean (l : List ℚ) : ℚ :=
  l.sum / l.length

/-- `scipy.stats.linregress`, an external collaborator modelled from its
documented behaviour: it raises `ValueError` on empty inputs ("Inputs must
not be empty.") and when all x values are identical; otherwise it returns the
least-squares slope and intercept. -/
def linregress (xs ys : List ℚ) : Except String (ℚ × ℚ) :=
  if xs.length = 0 then
    Except.error "Inputs must not be empty"
  else if xs.all (fun x => x == xs.headD 0) then
    Except.error "Cannot calculate a linear regression if all x values are identical"
  else
    let n : ℚ := xs.length
    let sx := xs.sum
    let sy := ys.sum
    let sxx := (xs.map (fun x => x * x)).sum
    let sxy := ((xs.zip ys).map (fun p => p.1 * p.2)).sum
    let m := (n * sxy - sx * sy) / (n * sxx - sx * sx)
    let c := (sy - m * sx) / n
    Except.ok (m, c)

/-- Embedding of `GROMACSBenchmarks.deviation_from_linear` (benchmark.py
lines 169-184): filter the pairs by truthiness, return the sentinel `-1` when
the *unfiltered* `ys` list is empty, else run the regression on the filtered
data and average the squared residuals `(_ys - m*_xs + c)**2` (the source's
own parenthesisation).  The final `np.sqrt` is omitted: it maps the
nonnegative mean of squares to a nonnegative result and no claim concerns the
magnitude; the sentinel `-1` is returned before it. -/
def deviation_from_linear (xs : List ℚ) (ys : List (Option ℚ)) :
    Except String ℚ :=
  let pairs := usable_pairs xs ys
  let fxs := pairs.map (fun p => p.1)
  let fys := pairs.map (fun p => p.2.getD 0)
  if ys.length = 0 then Except.ok (-1)
  else do
    let mc ← linregress fxs fys
    Except.ok (pyMean ((fxs.zip fys).map (fun p => (p.2 - mc.1 * p.1 + mc.2) ^ 2)))

/-- Counterexample to claim C7 as stated: at `xs = [4]`, `ys = [None]` there
are no usable target values, yet the statistic does not return the sentinel —
the emptiness guard tests the unfiltered `ys`, so the code calls the
regression on empty arrays, which raises. -/
theorem C7_counterexample :
    usable_pairs [4] [none] = [] ∧
    deviation_from_linear [4] [none] = Except.error "Inputs must not be empty" := by
  constructor
  · simp [usable_pairs, truthyQ]
  · simp only [deviation_from_linear, usable_pairs, truthyQ]
    norm_num [linregress]
    rfl

/-- Claim C7 (amended): when no performance line is present in the captured
output (or there is no captured output at all) the performance accessor
returns `None` with a warning rather than raising; and the deviation
statistic returns the fixed sentinel `-1` exactly when the downstream `ys`
list itself is empty — if `ys` is nonempty but every value is unusable, the
regression is invoked on empty data and raises instead. -/
theorem C7_amended_missing_result_handling :
    performance none = none ∧
    (∀ lines, (∀ l ∈ lines, perf_line_value l = none) →
      performance (some lines) = none) ∧
    (∀ xs ys, ys = [] → deviation_from_linear xs ys = Except.ok (-1)) := by
  refine ⟨rfl, ?_, ?_⟩
  · intro lines h
    exact List.findSome?_eq_none_iff.mpr h
  · intro xs ys h
    subst h
    simp [deviation_from_linear]

/-- Witness for the amended C7: a captured output holding only the sanity
line `GROMACS reminds you` has no performance line and yields `None`, and the
deviation of an empty benchmark set is the sentinel `-1`. -/
theorem C7_amended_missing_result_handling_witness :
    performance (some ["GROMACS reminds you".data]) = none ∧
    deviation_from_linear [] [] = Except.ok (-1) :=
  ⟨C7_amended_missing_result_handling.2.1 ["GROMACS reminds you".data]
     (by decide),
   C7_amended_missing_result_handling.2.2 [] [] rfl⟩

/-! ## `src/doc/inject_plots.py`: block averaging (claim C8) -/

/-- Embedding of `blocked_array` (inject_plots.py lines 806-819): error on an
empty array (the source raises `ValueError`; a zero block size would raise
`ZeroDivisionError` at `len(array) // block_size`), else the slices
`array[i*bs : bs*(i+1)]` for `i in range(len(array) // bs)`, with the
unblocked anchors `array[:1]` in front and `array[-1:]` behind. -/
def blocked_array (array : List ℚ) (block_size : Nat) :
    Except String (List (List ℚ)) :=
  if array.length = 0 then
    Except.error "Cannot block average. Had no items"
  else if block_size = 0 then
    Except.error "ZeroDivisionError"
  else
    Except.ok ([array.take 1] ++
      (List.range (array.length / block_size)).map
        (fun i => (array.drop (i * block_size)).take block_size) ++
      [array.drop (array.length - 1)])

/-- Embedding of `block_average` (inject_plots.py lines 801-803): the mean of
every block of `blocked_array`. -/
def block_average (array : List ℚ) (block_size : Nat) :
    Except String (List ℚ) :=
  match blocked_array array block_size with
  | Except.error e => Except.error e
  | Except.ok blocks => Except.ok (blocks.map pyMean)

/-- Claim C8: block-averaging `[1,…,10]` with block size 10 yields the first
raw sample, one averaged block equal to the mean `11/2` of the whole
sequence, and the last raw sample: `[1, 11/2, 10]`. -/
theorem C8_block_average_ten :
    block_average [1, 2, 3, 4, 5, 6, 7, 8, 9, 10] 10 =
      Except.ok [1, 11/2, 10] := by
  simp only [block_average, blocked_array]
  norm_num [pyMean, List.range_succ]

/-! ## `src/doc/inject_plots.py`: time-series bin assignment (claim C10) -/

/-- `np.linspace(start, stop, num)` over exact rationals: the endpoint-
inclusive grid `start + i * (stop - start) / (num - 1)` for
`i in range(num)`. -/
def np_linspace (start stop : ℚ) (num : Nat) : List ℚ :=
  (List.range num).map
    (fun (i : Nat) => start + (i : ℚ) * ((stop - start) / ((num : ℚ) - 1)))

/-- Python `min` over a nonempty list (the empty case raises; claims supply
nonempty input). -/
def pymin : List ℚ → ℚ
  | [] => 0
  | x :: xs => xs.foldl min x

/-- Python `max` over a nonempty list (the empty case raises). -/
def pymax : List ℚ → ℚ
  | [] => 0
  | x :: xs => xs.foldl max x

/-- The bin-assignment of the loop in `TimeSeriesRegressionPlot.smoothed`
(inject_plots.py lines 696-703): the first `i in range(1, len(bins))` with
`bins[i-1] < date <= bins[i]` (the `break`), recorded as block index `i-1`;
`none` when no bin admits the date. -/
def bin_index (bins : List ℚ) (d : ℚ) : Option Nat :=
  ((List.range' 1 (bins.length - 1)).find? (fun i =>
    decide (bins.getD (i - 1) 0 < d) && decide (d ≤ bins.getD i 0))).map
    (fun i => i - 1)

/-- The bin edges of `TimeSeriesRegressionPlot.smoothed` (inject_plots.py
line 691): `np.linspace(min(all_dates), max(all_dates), num=n+1)`. -/
def smoothed_bins (dates : List ℚ) (n : Nat) : List ℚ :=
  np_linspace (pymin dates) (pymax dates) (n + 1)

/-- The date/metric pairs collected into block `j` by the loop of
`TimeSeriesRegressionPlot.smoothed`. -/
def smoothed_bin_pairs (dates metrics : List ℚ) (n j : Nat) : List (ℚ × ℚ) :=
  (dates.zip metrics).filter
    (fun p => bin_index (smoothed_bins dates n) p.1 == some j)

theorem foldl_min_le (l : List ℚ) (x : ℚ) : l.foldl min x ≤ x := by
  induction l generalizing x with
  | nil => exact le_refl x
  | cons y l ih => exact le_trans (ih (min x y)) (min_le_left x y)

theorem le_foldl_max (l : List ℚ) (x : ℚ) : x ≤ l.foldl max x := by
  induction l generalizing x with
  | nil => exact le_refl x
  | cons y l ih => exact le_trans (le_max_left x y) (ih (max x y))

theorem pymin_le_pymax (l : List ℚ) (h : l ≠ []) : pymin l ≤ pymax l := by
  cases l with
  | nil => exact absurd rfl h
  | cons x xs => exact le_trans (foldl_min_le xs x) (le_foldl_max xs x)

theorem np_linspace_length (start stop : ℚ) (num : Nat) :
    (np_linspace start stop num).length = num := by
  rw [np_linspace, List.length_map, List.length_range]

theorem np_linspace_getD (start stop : ℚ) (num k : Nat) (hk : k < num) :
    (np_linspace start stop num).getD k 0 =
      start + (k : ℚ) * ((stop - start) / ((num : ℚ) - 1)) := by
  rw [np_linspace, List.getD_eq_getElem?_getD, List.getElem?_map,
    List.getElem?_range hk]
  rfl

/-- Claim C10: in `TimeSeriesRegressionPlot.smoothed` the bin membership test
uses a strict lower bound `bins[i-1] < date`, and the lowest bin edge is the
series minimum, so for every nonempty date series a data point dated at the
series minimum satisfies no bin's test: it is assigned to no bin and is
excluded from every per-bin average. -/
theorem C10_min_date_in_no_bin (dates : List ℚ) (n : Nat)
    (hne : dates ≠ []) (hn : 1 ≤ n) :
    bin_index (smoothed_bins dates n) (pymin dates) = none ∧
    ∀ (metrics : List ℚ) (j : Nat) (p : ℚ × ℚ),
      p ∈ smoothed_bin_pairs dates metrics n j → p.1 ≠ pymin dates := by
  have hab : pymin dates ≤ pymax dates := pymin_le_pymax dates hne
  have hlen : (smoothed_bins dates n).length = n + 1 :=
    np_linspace_length _ _ _
  have hnone : bin_index (smoothed_bins dates n) (pymin dates) = none := by
    unfold bin_index
    rw [List.find?_eq_none.mpr ?hpred]
    · rfl
    case hpred =>
      intro i hi
      rw [List.mem_range'_1] at hi
      have hi1 : 1 ≤ i := hi.1
      have hi2 : i < n + 1 := by
        have := hi.2
        omega
      have hgetD : (smoothed_bins dates n).getD (i - 1) 0 =
          pymin dates + ((i - 1 : Nat) : ℚ) *
            ((pymax dates - pymin dates) / (((n + 1 : Nat) : ℚ) - 1)) :=
        np_linspace_getD _ _ _ _ (by omega)
      have hstep : (0 : ℚ) ≤ ((i - 1 : Nat) : ℚ) *
          ((pymax dates - pymin dates) / (((n + 1 : Nat) : ℚ) - 1)) := by
        apply mul_nonneg (Nat.cast_nonneg _)
        apply div_nonneg (by linarith)
        have : (1 : ℚ) ≤ ((n + 1 : Nat) : ℚ) := by
          push_cast
          have : (1 : ℚ) ≤ (n : ℚ) := by exact_mod_cast hn
          linarith
        linarith
      have hfirst : ¬ ((smoothed_bins dates n).getD (i - 1) 0 < pymin dates) := by
        rw [hgetD]
        linarith
      rw [List.getD_eq_getElem?_getD] at hfirst
      simp [hfirst]
  refine ⟨hnone, ?_⟩
  intro metrics j p hp hpeq
  have h2 := (List.mem_filter.mp hp).2
  rw [hpeq, hnone] at h2
  simp at h2

/-- Witness for C10 at the date series `[0, 1]` with one bin. -/
theorem C10_min_date_in_no_bin_witness :
    bin_index (smoothed_bins [0, 1] 1) (pymin [0, 1]) = none :=
  (C10_min_date_in_no_bin [0, 1] 1 (by simp) (by decide)).1

end Excalibur
